import Mathlib

/-!
Verification development for the streaming-analytics platform's
stream-processing core.  The Python sources are shallowly embedded:

* `src/services/producer-advanced/producer.py`
    `CircuitBreaker`, `AdaptiveRateLimiter`
* `src/services/processor-advanced/processor.py`
    `SlidingWindow`, `ComplexEventProcessor`, idempotency filter,
    the consumer loop's per-message ack handling
* `src/services/ml-detector/ml_detector.py`
    `AdvancedAnomalyDetector`, `MLDetectorService.store_anomaly`

Conventions of the embedding:

* Python `float` quantities (times, rates, scores, amounts) are modelled
  as `ℚ`; the claims under study are order/equality facts that do not
  depend on binary rounding.
* `time.time()` (wall clock, seconds) is passed explicitly as a `now : ℚ`
  parameter wherever the source reads the ambient clock.
* Python `dict.get(k, d)` on optional event fields is modelled by
  `Option` fields with `Option.getD`.
* `hashlib.sha256(s).hexdigest()` is modelled as the identity on its
  input string: the idempotency filter only compares keys for equality
  and the hash is assumed collision-free.
* The Isolation Forest's `decision_function` output is an opaque real
  quantity; it is modelled as an explicit `ℚ` argument (`mlRaw`).
-/

namespace StreamAnalytics

/-- The event record produced by `producer.py` (`@dataclass Event`) as the
downstream services consume it via `dict.get`: every field the claims touch
is optional, matching `event.get(...)` semantics.  `timestamp` is epoch
milliseconds, `amount` is `properties['amount']`, `device_type` is
`properties['device_type']`. -/
structure Event where
  event_id : Option String := none
  user_id : Option String := none
  session_id : Option String := none
  event_type : Option String := none
  timestamp : Option Int := none
  amount : Option ℚ := none
  device_type : Option String := none
  causality_chain : List String := []
deriving Repr, DecidableEq

/-- Python truthiness of an optional string (`if user_id:`):
`None` and `""` are falsy. -/
def strTruthy : Option String → Bool
  | none => false
  | some s => s ≠ ""

/-- Python truthiness of the optional numeric `amount` (`if amount:`):
missing and `0` are falsy. -/
def amtTruthy : Option ℚ → Bool
  | none => false
  | some a => a ≠ 0

/-! ## Producer resilience shell (`producer.py`) -/

/-- Outcome of `CircuitBreaker.call`: `ok` / `funcFailed` mean the wrapped
function was invoked (and returned / raised); `circuitOpen` means the
breaker raised "Circuit breaker is open" without invoking it. -/
inductive CallResult where
  | ok
  | funcFailed
  | circuitOpen
deriving Repr, DecidableEq

/-- State of `CircuitBreaker` (`producer.py` lines 80-86).  `state` keeps
the source's string encoding: "closed", "open", "half-open". -/
structure CircuitBreaker where
  failure_threshold : Nat := 5
  timeout : ℚ := 60
  failure_count : Nat := 0
  last_failure_time : Option ℚ := none
  state : String := "closed"
deriving Repr, DecidableEq

/-- The `try:` block of `CircuitBreaker.call` (lines 96-109): invoke the
wrapped function; on success a half-open breaker closes and resets
`failure_count`; on failure increment `failure_count`, record
`last_failure_time`, and trip to open once the threshold is reached. -/
def CircuitBreaker.attempt (cb : CircuitBreaker) (now : ℚ)
    (funcSucceeds : Bool) : CallResult × CircuitBreaker :=
  if funcSucceeds then
    (CallResult.ok,
      if cb.state = "half-open" then
        { cb with state := "closed", failure_count := 0 }
      else cb)
  else
    let fc := cb.failure_count + 1
    (CallResult.funcFailed,
      { cb with
          failure_count := fc,
          last_failure_time := some now,
          state := if cb.failure_threshold ≤ fc then "open" else cb.state })

/-- `CircuitBreaker.call` (lines 88-109).  While open, if
`now - last_failure_time > timeout` the breaker moves to half-open and the
call is attempted; otherwise it raises without invoking the function.
(`last_failure_time` is always set when the breaker is open; `getD 0`
covers the unreachable `None` case.) -/
def CircuitBreaker.call (cb : CircuitBreaker) (now : ℚ)
    (funcSucceeds : Bool) : CallResult × CircuitBreaker :=
  if cb.state = "open" then
    if now - cb.last_failure_time.getD 0 > cb.timeout then
      CircuitBreaker.attempt { cb with state := "half-open" } now funcSucceeds
    else
      (CallResult.circuitOpen, cb)
  else
    CircuitBreaker.attempt cb now funcSucceeds

/-- Fold a sequence of `(time, outcome)` calls through the breaker. -/
def CircuitBreaker.runCalls (cb : CircuitBreaker)
    (calls : List (ℚ × Bool)) : CircuitBreaker :=
  calls.foldl (fun b c => (b.call c.1 c.2).2) cb

/-- State of `AdaptiveRateLimiter` (`producer.py` lines 111-117). -/
structure AdaptiveRateLimiter where
  base_rate : ℚ
  current_rate : ℚ
  success_count : Nat := 0
  error_count : Nat := 0
  last_adjustment : ℚ
deriving Repr, DecidableEq

/-- `AdaptiveRateLimiter.__init__`. -/
def AdaptiveRateLimiter.init (base_rate : ℚ) (now : ℚ) : AdaptiveRateLimiter :=
  { base_rate := base_rate, current_rate := base_rate, last_adjustment := now }

/-- `AdaptiveRateLimiter._adjust_rate` (lines 128-135): more errors than
10% of the successes shrinks `current_rate` by 0.8 with floor
`0.1 * base_rate`; fewer errors than 1% of the successes grows it by 1.1
with ceiling `2 * base_rate`; the rolling counts reset unconditionally. -/
def AdaptiveRateLimiter.adjust_rate (rl : AdaptiveRateLimiter) :
    AdaptiveRateLimiter :=
  let r :=
    if (rl.error_count : ℚ) > (rl.success_count : ℚ) * (1 / 10) then
      max (rl.current_rate * (8 / 10)) (rl.base_rate * (1 / 10))
    else if (rl.error_count : ℚ) < (rl.success_count : ℚ) * (1 / 100) then
      min (rl.current_rate * (11 / 10)) (rl.base_rate * 2)
    else rl.current_rate
  { rl with current_rate := r, success_count := 0, error_count := 0 }

/-- `AdaptiveRateLimiter.should_allow` (lines 119-126): if more than 10
seconds passed since the last adjustment, adjust and stamp; admission is
`random.random() < current_rate / base_rate`, with the random draw passed
explicitly as `rand`. -/
def AdaptiveRateLimiter.should_allow (rl : AdaptiveRateLimiter) (now : ℚ)
    (rand : ℚ) : Bool × AdaptiveRateLimiter :=
  let rl' :=
    if now - rl.last_adjustment > 10 then
      { rl.adjust_rate with last_adjustment := now }
    else rl
  (rand < rl'.current_rate / rl'.base_rate, rl')

/-! ## Advanced processor (`processor.py`) -/

/-- Aggregates recomputed by `SlidingWindow._update_aggregates`
(lines 80-107): per-event-type counts, total event count, distinct count
of truthy user ids, total revenue and revenue by event type (from a
numeric `amount` property when present). -/
structure WindowAggregates where
  counts : List (String × Nat)
  totalEvents : Nat
  uniqueUsers : Nat
  revenueTotal : ℚ
  revenueByType : List (String × ℚ)
deriving Repr, DecidableEq

/-- Bump the tally of `k` in an association list (the `defaultdict(float)`
`+=` pattern of the source, with counts kept as naturals). -/
def bumpCount (k : String) (n : Nat) : List (String × Nat) → List (String × Nat)
  | [] => [(k, n)]
  | (k', v) :: rest =>
      if k' = k then (k', v + n) :: rest else (k', v) :: bumpCount k n rest

/-- Bump the rational tally of `k` in an association list. -/
def bumpSum (k : String) (q : ℚ) : List (String × ℚ) → List (String × ℚ)
  | [] => [(k, q)]
  | (k', v) :: rest =>
      if k' = k then (k', v + q) :: rest else (k', v) :: bumpSum k q rest

/-- Full recomputation pass of `SlidingWindow._update_aggregates` over the
retained `(insertion_time, event)` entries.  `event.get('event_type',
'unknown')` keys the counts; `if user_id:` guards the unique-user set;
`'amount' in properties` guards the revenue sums. -/
def computeAggregates (entries : List (ℚ × Event)) : WindowAggregates :=
  let step := fun (agg : WindowAggregates) (p : ℚ × Event) =>
    let e := p.2
    let et := e.event_type.getD "unknown"
    let agg := { agg with counts := bumpCount et 1 agg.counts,
                          totalEvents := agg.totalEvents + 1 }
    let agg :=
      match e.amount with
      | some a =>
          { agg with revenueTotal := agg.revenueTotal + a,
                     revenueByType := bumpSum et a agg.revenueByType }
      | none => agg
    agg
  let base := entries.foldl step
    { counts := [], totalEvents := 0, uniqueUsers := 0,
      revenueTotal := 0, revenueByType := [] }
  { base with
      uniqueUsers :=
        ((entries.map (fun p => p.2.user_id)).filter strTruthy).dedup.length }

/-- `SlidingWindow` state (lines 60-66): a deque of
`(insertion_time, event)` entries, oldest first, plus the recomputed
aggregates. -/
structure SlidingWindow where
  window_size : ℚ
  events : List (ℚ × Event)
  aggregates : WindowAggregates
deriving Repr, DecidableEq

/-- `SlidingWindow.__init__`. -/
def SlidingWindow.init (window_size : ℚ) : SlidingWindow :=
  { window_size := window_size, events := [],
    aggregates := computeAggregates [] }

/-- The `while self.events and self.events[0][0] < cutoff_time:
self.events.popleft()` loop of `add_event`: pop entries from the front
while the head's insertion time is strictly below the cutoff. -/
def evictOld (cutoff : ℚ) : List (ℚ × Event) → List (ℚ × Event)
  | [] => []
  | (t, e) :: rest =>
      if t < cutoff then evictOld cutoff rest else (t, e) :: rest

/-- `SlidingWindow.add_event` (lines 68-78): append `(now, event)`, evict
entries strictly older than `now - window_size`, then fully recompute the
aggregates over the retained entries. -/
def SlidingWindow.add_event (w : SlidingWindow) (now : ℚ) (e : Event) :
    SlidingWindow :=
  let retained := evictOld (now - w.window_size) (w.events ++ [(now, e)])
  { w with events := retained, aggregates := computeAggregates retained }

/-- `event['timestamp']` by direct dict indexing (the CEP detectors index
the field without a default; the embedding reads `0` where the source
would raise `KeyError` on a missing field). -/
def tsRaw (e : Event) : Int := e.timestamp.getD 0

/-- Result of `ComplexEventProcessor._detect_purchase_funnel`. -/
structure FunnelResult where
  funnel_completed : Bool
  conversion_time : Int
  steps : Nat
deriving Repr, DecidableEq

/-- `ComplexEventProcessor._detect_purchase_funnel` (lines 144-163): if
`page_view`, `click` and `purchase` all occur in the buffer and their
first-occurrence indices (`list.index`) are strictly increasing in that
order, report `conversion_time` as the first purchase's timestamp minus
the first page view's timestamp and `steps` as the number of distinct
event types. -/
def detect_purchase_funnel (events : List Event) : Option FunnelResult :=
  let ets := events.map Event.event_type
  if some "page_view" ∈ ets ∧ some "click" ∈ ets ∧ some "purchase" ∈ ets then
    let view_idx := ets.indexOf (some "page_view")
    let click_idx := ets.indexOf (some "click")
    let purchase_idx := ets.indexOf (some "purchase")
    if view_idx < click_idx ∧ click_idx < purchase_idx then
      some { funnel_completed := true,
             conversion_time :=
               tsRaw (events.getD purchase_idx {}) -
                 tsRaw (events.getD view_idx {}),
             steps := ets.dedup.length }
    else none
  else none

/-- Result of `ComplexEventProcessor._detect_fraud_pattern`. -/
structure FraudResult where
  rapid_purchases : Bool
  purchase_count : Nat
  avg_time_between : ℚ
deriving Repr, DecidableEq

/-- Differences between consecutive elements
(`purchases[i] - purchases[i-1]` for `i = 1 .. len-1`). -/
def consecDiffs : List Int → List Int
  | a :: b :: rest => (b - a) :: consecDiffs (b :: rest)
  | _ => []

/-- `ComplexEventProcessor._detect_fraud_pattern` (lines 165-184): with at
least three events in the buffer and at least three `purchase` events,
take the consecutive timestamp differences of the purchases in buffer
order, converted to seconds; if all are below 60 the pattern fires,
reporting the purchase count and the mean difference. -/
def detect_fraud_pattern (events : List Event) : Option FraudResult :=
  if events.length < 3 then none
  else
    let purchases := events.filter (fun e => e.event_type = some "purchase")
    if 3 ≤ purchases.length then
      let time_diffs :=
        (consecDiffs (purchases.map tsRaw)).map (fun d : ℤ => (d : ℚ) / 1000)
      if time_diffs.all (fun d => d < 60) then
        some { rapid_purchases := true,
               purchase_count := purchases.length,
               avg_time_between := time_diffs.sum / (time_diffs.length : ℚ) }
      else none
    else none

/-- `AdvancedProcessor.generate_idempotency_key` (lines 302-309): the key
is derived from `f"{event_id}:{user_id}:{timestamp}:{STAGE}"` with each
missing field defaulting to `''`.  `hashlib.sha256(...).hexdigest()` is
modelled as the identity on this string (the filter only compares keys
for equality and the hash is assumed collision-free). -/
def generate_idempotency_key (stage : String) (e : Event) : String :=
  let event_id := e.event_id.getD ""
  let user_id := e.user_id.getD ""
  let timestamp := match e.timestamp with
    | some t => toString t
    | none => ""
  event_id ++ ":" ++ user_id ++ ":" ++ timestamp ++ ":" ++ stage

/-- The idempotency check at the head of `AdvancedProcessor.process_event`
(lines 354-360), the spec's `shouldProcess`: a key already in the cache
is skipped without touching the cache; a fresh key is inserted and the
event is processed. -/
def shouldProcess (stage : String) (cache : List String) (e : Event) :
    Bool × List String :=
  let idem_key := generate_idempotency_key stage e
  if idem_key ∈ cache then (false, cache)
  else (true, idem_key :: cache)

/-- A message payload as the consumer loop sees it: `parsed e` when
`orjson.loads(fields['data'])` succeeds, `malformed` when it raises. -/
inductive Payload where
  | parsed (e : Event)
  | malformed
deriving Repr, DecidableEq

/-- Observable outcome of one batch iteration of `AdvancedProcessor.run`. -/
structure BatchOutcome where
  cache : List String
  processed : List Event
  ack_ids : List String
  errors_logged : List String
deriving Repr, DecidableEq

/-- The step function of the per-message loop inside
`AdvancedProcessor.run`, named for reuse in proofs; `handleBatch` below
folds it over the batch. -/
def batchStep (stage : String) (out : BatchOutcome) (m : String × Payload) :
    BatchOutcome :=
  match m.2 with
  | Payload.malformed =>
      { out with errors_logged := out.errors_logged ++ [m.1] }
  | Payload.parsed e =>
      let r := shouldProcess stage out.cache e
      { out with
          cache := r.2,
          processed := if r.1 then out.processed ++ [e] else out.processed,
          ack_ids := out.ack_ids ++ [m.1] }

/-- The per-message loop of `AdvancedProcessor.run` (lines 446-458): for
each `(msg_id, payload)`, parse and process inside `try`; a successfully
parsed message has its id appended to `ack_ids` (whether or not the
idempotency filter let it through); a payload that raises is logged and
the `ack_ids` append is skipped, so the message is never acknowledged. -/
def handleBatch (stage : String) (cache : List String)
    (msgs : List (String × Payload)) : BatchOutcome :=
  msgs.foldl
    (fun out m =>
      match m.2 with
      | Payload.malformed =>
          { out with errors_logged := out.errors_logged ++ [m.1] }
      | Payload.parsed e =>
          let r := shouldProcess stage out.cache e
          { out with
              cache := r.2,
              processed := if r.1 then out.processed ++ [e] else out.processed,
              ack_ids := out.ack_ids ++ [m.1] })
    { cache := cache, processed := [], ack_ids := [], errors_logged := [] }

/-! ## ML anomaly detector (`ml_detector.py`) -/

/-- Per-user behavioral baseline (`update_user_baseline`, lines 115-152):
raw events, the set of session ids (kept as a dedup-ordered list), the
purchase amounts, and the running statistics recomputed on every update. -/
structure UserBaseline where
  events : List Event
  sessions : List String
  purchases : List ℚ
  last_seen : ℚ
  avg_session_events : ℚ
  avg_purchase_amount : ℚ
  sessions_count : Nat
deriving Repr, DecidableEq

/-- The analysis record built by `AdvancedAnomalyDetector.analyze_event`
(lines 294-304); behavioral sub-scores are kept as `(name, score)` pairs. -/
structure AnalysisResult where
  event_id : Option String
  user_id : Option String
  timestamp : Option Int
  ml_anomaly_score : ℚ
  behavioral_anomalies : List (String × ℚ)
  combined_anomaly_score : ℚ
  is_anomaly : Bool
  model_version : Nat
deriving Repr, DecidableEq

/-- `AdvancedAnomalyDetector` state (lines 44-60).  The numeric contents
of the feature buffer feed the external learning library and never flow
back into the claims, so only its length is tracked; the global baseline
average purchase amount is the constant `50.0`. -/
structure AnomalyDetector where
  feature_count : Nat
  is_trained : Bool
  model_version : Nat
  user_baselines : List (String × UserBaseline)
  anomaly_buffer : List AnalysisResult
deriving Repr, DecidableEq

/-- `AdvancedAnomalyDetector.__init__`. -/
def AnomalyDetector.init : AnomalyDetector :=
  { feature_count := 0, is_trained := false, model_version := 1,
    user_baselines := [], anomaly_buffer := [] }

/-- `set.add`: insert a session id if not already present. -/
def setAdd (s : List String) (x : String) : List String :=
  if x ∈ s then s else s ++ [x]

/-- Insert-or-replace in the `user_baselines` dict. -/
def upsertBaseline (k : String) (v : UserBaseline) :
    List (String × UserBaseline) → List (String × UserBaseline)
  | [] => [(k, v)]
  | (k', v') :: rest =>
      if k' = k then (k, v) :: rest else (k', v') :: upsertBaseline k v rest

/-- Append to a `deque(maxlen := cap)`: drop from the front when full. -/
def pushBounded {α : Type} (cap : Nat) (l : List α) (x : α) : List α :=
  if cap < (l ++ [x]).length then
    (l ++ [x]).drop ((l ++ [x]).length - cap)
  else l ++ [x]

/-- `AdvancedAnomalyDetector.update_user_baseline` (lines 115-152): a
falsy `user_id` returns unchanged; otherwise the user's baseline gets the
event appended, the session id added (when truthy), the purchase amount
appended (for truthy-amount purchases), the running averages recomputed
from the unpruned lists, and finally the events pruned to those with
`timestamp/1000` strictly above `now - 7*24*3600` (missing timestamps
default to `0`). -/
def update_user_baseline (now : ℚ) (st : AnomalyDetector) (e : Event) :
    AnomalyDetector :=
  if strTruthy e.user_id then
    let uid := e.user_id.getD ""
    let b0 := (st.user_baselines.lookup uid).getD
      { events := [], sessions := [], purchases := [], last_seen := now,
        avg_session_events := 0, avg_purchase_amount := 0, sessions_count := 0 }
    let events := b0.events ++ [e]
    let sessions :=
      if strTruthy e.session_id then setAdd b0.sessions (e.session_id.getD "")
      else b0.sessions
    let purchases :=
      if e.event_type = some "purchase" ∧ amtTruthy e.amount then
        b0.purchases ++ [e.amount.getD 0]
      else b0.purchases
    let avg_se := (events.length : ℚ) / ((max 1 sessions.length : Nat) : ℚ)
    let avg_pa :=
      if purchases.length = 0 then 25
      else purchases.sum / (purchases.length : ℚ)
    let pruned := events.filter
      (fun ev => ((ev.timestamp.getD 0 : Int) : ℚ) / 1000 > now - 7 * 24 * 3600)
    let b1 : UserBaseline :=
      { events := pruned, sessions := sessions, purchases := purchases,
        last_seen := now, avg_session_events := avg_se,
        avg_purchase_amount := avg_pa, sessions_count := sessions.length }
    { st with user_baselines := upsertBaseline uid b1 st.user_baselines }
  else st

/-- `event.get('timestamp', time.time()*1000) / 1000`: the event time in
seconds, defaulting to the wall clock. -/
def tsSeconds (now : ℚ) (e : Event) : ℚ :=
  (match e.timestamp with
    | some t => (t : ℚ)
    | none => now * 1000) / 1000

/-- Hour-of-day of an epoch-seconds instant (`pd.to_datetime(ts,
unit='s').hour`, UTC). -/
def hourOf (ts : ℚ) : Int := (⌊ts / 3600⌋ : Int) % 24

/-- The rapid-fire rule of `detect_behavioral_anomalies` (lines 162-173):
for a user known to `user_baselines`, more than 20 baseline events inside
the trailing 60 seconds score `min 1 (n / 50)` (missing event timestamps
default to `0`). -/
def recent_events (now : ℚ) (b : UserBaseline) : List Event :=
  b.events.filter
    (fun ev => ((ev.timestamp.getD 0 : Int) : ℚ) / 1000 > now - 60)

def rapid_fire_anomaly (now : ℚ) (st : AnomalyDetector) (e : Event) :
    List (String × ℚ) :=
  match e.user_id.bind (fun uid => st.user_baselines.lookup uid) with
  | some b =>
      if 20 < (recent_events now b).length then
        [("rapid_fire", min 1 (((recent_events now b).length : ℚ) / 50))]
      else []
  | none => []

/-- The purchase-amount rules of `detect_behavioral_anomalies`
(lines 175-196): for truthy-amount purchases, `unusual_purchase` when the
amount exceeds 5x the user's average (score `min 1 (amount/(10*avg))`)
and `high_value_purchase` when it exceeds 10x the global baseline of 50
(score `min 1 (amount/1000)`). -/
def purchase_anomalies (st : AnomalyDetector) (e : Event) :
    List (String × ℚ) :=
  if e.event_type = some "purchase" ∧ amtTruthy e.amount then
    (match e.user_id.bind (fun uid => st.user_baselines.lookup uid) with
      | some b =>
          if e.amount.getD 0 > b.avg_purchase_amount * 5 then
            [("unusual_purchase",
               min 1 (e.amount.getD 0 / (b.avg_purchase_amount * 10)))]
          else []
      | none => []) ++
    (if e.amount.getD 0 > 50 * 10 then
      [("high_value_purchase", min 1 (e.amount.getD 0 / 1000))]
    else [])
  else []

/-- The off-hours rule of `detect_behavioral_anomalies` (lines 198-206):
hour below 6 or above 23 scores a flat `0.3`. -/
def time_anomaly (now : ℚ) (e : Event) : List (String × ℚ) :=
  if hourOf (tsSeconds now e) < 6 ∨ hourOf (tsSeconds now e) > 23 then
    [("unusual_time", 3 / 10)]
  else []

/-- `AdvancedAnomalyDetector.detect_behavioral_anomalies` (lines 154-208),
producing the `(name, score)` pairs of the `anomalies` dict in source
order. -/
def detect_behavioral_anomalies (now : ℚ) (st : AnomalyDetector) (e : Event) :
    List (String × ℚ) :=
  rapid_fire_anomaly now st e ++ purchase_anomalies st e ++ time_anomaly now e

/-- `AdvancedAnomalyDetector.get_ml_anomaly_score` (lines 245-265): `0`
until the model is trained, otherwise the Isolation Forest decision value
`mlRaw` mapped through `max(0, min(1, (0.5 - mlRaw) / 1.0))`. -/
def get_ml_anomaly_score (is_trained : Bool) (mlRaw : ℚ) : ℚ :=
  if is_trained then max 0 (min 1 ((1 / 2 - mlRaw) / 1)) else 0

/-- Python `max(scores, default=0)`. -/
def maxScore : List ℚ → ℚ
  | [] => 0
  | x :: xs => xs.foldl max x

/-- `AdvancedAnomalyDetector.train_model` (lines 210-243): below 100
buffered samples it returns without training; otherwise the fit succeeds
in the model, marking the detector trained and bumping the version. -/
def train_model (st : AnomalyDetector) : AnomalyDetector :=
  if st.feature_count < 100 then st
  else { st with is_trained := true, model_version := st.model_version + 1 }

/-- `AdvancedAnomalyDetector.analyze_event` (lines 267-321): update the
user baseline, buffer the feature vector (bounded at 10000), score with
the learned model (`mlRaw` is the opaque decision value), collect the
behavioral sub-scores, combine by `max(ml, max(behavioral, default=0))`,
flag `is_anomaly` at `combined > 0.7`, and append the result to the
in-memory `anomaly_buffer` (bounded at 1000) when `combined > 0.5`. -/
def analyze_event (mlRaw : ℚ) (now : ℚ) (st : AnomalyDetector) (e : Event) :
    AnalysisResult × AnomalyDetector :=
  let st1 := update_user_baseline now st e
  let st2 := { st1 with feature_count := min (st1.feature_count + 1) 10000 }
  let ml := get_ml_anomaly_score st2.is_trained mlRaw
  let beh := detect_behavioral_anomalies now st2 e
  let combined := max ml (maxScore (beh.map Prod.snd))
  let r : AnalysisResult :=
    { event_id := e.event_id, user_id := e.user_id, timestamp := e.timestamp,
      ml_anomaly_score := ml, behavioral_anomalies := beh,
      combined_anomaly_score := combined,
      is_anomaly := combined > 7 / 10, model_version := st2.model_version }
  let st3 :=
    if combined > 1 / 2 then
      { st2 with anomaly_buffer := pushBounded 1000 st2.anomaly_buffer r }
    else st2
  (r, st3)

/-- A record persisted to the external store by
`MLDetectorService.store_anomaly` (lines 396-421): the hash is written at
`anomaly:{event_id}` and given a TTL of 86400 seconds (24 hours). -/
structure StoredAnomaly where
  key : String
  expire_seconds : Nat
deriving Repr, DecidableEq

/-- `MLDetectorService.store_anomaly` as the store sees it. -/
def store_anomaly (analysis : AnalysisResult) : StoredAnomaly :=
  { key := "anomaly:" ++ (match analysis.event_id with
      | some i => i
      | none => "None"),
    expire_seconds := 86400 }

/-- The persistence decision of `MLDetectorService.process_events`
(lines 383-384): `store_anomaly` is called exactly when the analysis has
`is_anomaly` set. -/
def handle_analysis (analysis : AnalysisResult) : Option StoredAnomaly :=
  if analysis.is_anomaly then some (store_anomaly analysis) else none

/-- A concrete click event at epoch-ms 100000 from user "u", used to
exercise the rapid-fire rule. -/
def cev : Event :=
  { event_id := some "evt", user_id := some "u", session_id := some "s",
    event_type := some "click", timestamp := some 100000 }

/-- A concrete baseline for user "u" holding 25 recent click events (a
state reached by 25 prior `analyze_event` calls on copies of `cev`). -/
def cbase : UserBaseline :=
  { events := List.replicate 25 cev, sessions := ["s"], purchases := [],
    last_seen := 100, avg_session_events := 25, avg_purchase_amount := 25,
    sessions_count := 1 }

/-- A concrete detector state whose only baseline is `cbase`. -/
def cst : AnomalyDetector :=
  { feature_count := 25, is_trained := false, model_version := 1,
    user_baselines := [("u", cbase)], anomaly_buffer := [] }

/-! ## Theorems -/

/-- C5: on the default breaker (threshold 5, timeout 60), five consecutive
failed calls leave the breaker open with `failure_count = 5`; while open,
a call at `now` not past the timeout since `last_failure_time` returns
the circuit-open error with the breaker untouched and the wrapped
function never invoked; a call past the timeout is attempted (half-open,
never the circuit-open error), and a successful such probe closes the
breaker and resets `failure_count` to 0. -/
theorem C5_circuit_breaker_lifecycle :
    (∀ t1 t2 t3 t4 t5 : ℚ,
      (CircuitBreaker.runCalls {}
          [(t1, false), (t2, false), (t3, false), (t4, false), (t5, false)]).state
        = "open" ∧
      (CircuitBreaker.runCalls {}
          [(t1, false), (t2, false), (t3, false), (t4, false), (t5, false)]).failure_count
        = 5) ∧
    (∀ (cb : CircuitBreaker) (now : ℚ) (s : Bool),
      cb.state = "open" →
      now - cb.last_failure_time.getD 0 ≤ cb.timeout →
      cb.call now s = (CallResult.circuitOpen, cb)) ∧
    (∀ (cb : CircuitBreaker) (now : ℚ) (s : Bool),
      cb.state = "open" →
      now - cb.last_failure_time.getD 0 > cb.timeout →
      (cb.call now s).1 ≠ CallResult.circuitOpen) ∧
    (∀ (cb : CircuitBreaker) (now : ℚ),
      cb.state = "open" →
      now - cb.last_failure_time.getD 0 > cb.timeout →
      (cb.call now true).2.state = "closed" ∧
      (cb.call now true).2.failure_count = 0) := by
  refine ⟨fun t1 t2 t3 t4 t5 => ⟨rfl, rfl⟩, ?_, ?_, ?_⟩
  · intro cb now s h1 h2
    simp [CircuitBreaker.call, h1, not_lt.mpr h2]
  · intro cb now s h1 h2
    cases s <;>
      simp [CircuitBreaker.call, CircuitBreaker.attempt, h1, h2]
  · intro cb now h1 h2
    simp [CircuitBreaker.call, CircuitBreaker.attempt, h1, h2]

/-- Closed instantiation of `C5_circuit_breaker_lifecycle`: a breaker
opened at time 0 rejects a call at time 30 untouched, and a call at time
100 succeeds and closes it. -/
theorem C5_circuit_breaker_lifecycle_witness :
    (CircuitBreaker.call
        { failure_count := 5, last_failure_time := some 0, state := "open" }
        30 true
      = (CallResult.circuitOpen,
          { failure_count := 5, last_failure_time := some 0, state := "open" })) ∧
    ((CircuitBreaker.call
        { failure_count := 5, last_failure_time := some 0, state := "open" }
        100 true).2.state = "closed" ∧
     (CircuitBreaker.call
        { failure_count := 5, last_failure_time := some 0, state := "open" }
        100 true).2.failure_count = 0) :=
  ⟨C5_circuit_breaker_lifecycle.2.1 _ 30 true rfl (by norm_num),
   C5_circuit_breaker_lifecycle.2.2.2 _ 100 rfl (by norm_num)⟩

/-- C10: a successful call on a closed breaker returns the breaker
completely unchanged (`failure_count` is not reset); the reset happens
only on a successful half-open probe; consequently the default breaker
trips to open after 5 cumulative failures even when each failure is
followed by a successful call. -/
theorem C10_closed_success_keeps_failure_count :
    (∀ (cb : CircuitBreaker) (now : ℚ),
      cb.state = "closed" → cb.call now true = (CallResult.ok, cb)) ∧
    (∀ (cb : CircuitBreaker) (now : ℚ),
      cb.state = "half-open" →
      (cb.call now true).2.failure_count = 0 ∧
      (cb.call now true).2.state = "closed") ∧
    ((CircuitBreaker.runCalls {}
        [(0, false), (1, true), (2, false), (3, true), (4, false), (5, true),
         (6, false), (7, true), (8, false)]).state = "open" ∧
     (CircuitBreaker.runCalls {}
        [(0, false), (1, true), (2, false), (3, true), (4, false), (5, true),
         (6, false), (7, true), (8, false)]).failure_count = 5) := by
  refine ⟨?_, ?_, by constructor <;> rfl⟩
  · intro cb now h1
    simp [CircuitBreaker.call, CircuitBreaker.attempt, h1]
  · intro cb now h1
    simp [CircuitBreaker.call, CircuitBreaker.attempt, h1]

/-- Closed instantiation of `C10_closed_success_keeps_failure_count`: a
closed breaker with 3 accumulated failures is unchanged by a success, and
a half-open breaker with 5 failures resets on a successful probe. -/
theorem C10_closed_success_keeps_failure_count_witness :
    (CircuitBreaker.call
        { failure_count := 3, last_failure_time := some 0, state := "closed" }
        10 true
      = (CallResult.ok,
          { failure_count := 3, last_failure_time := some 0, state := "closed" })) ∧
    (CircuitBreaker.call
        { failure_count := 5, last_failure_time := some 0, state := "half-open" }
        10 true).2.failure_count = 0 :=
  ⟨C10_closed_success_keeps_failure_count.1 _ 10 rfl,
   (C10_closed_success_keeps_failure_count.2.1 _ 10 rfl).1⟩

/-- C6: at an adjustment with a positive success count (error ratio read
as `error_count / success_count`, matching the source's comparison
against fractions of `success_count`): a ratio above 10% sets
`current_rate` to `max (current * 0.8) (base * 0.1)` — a strict decrease
whenever the rate sits above the 10%-of-base floor; a ratio below 1% sets
it to `min (current * 1.1) (base * 2)` — bounded by `2 * base` and a
strict increase whenever the rate sits below that ceiling; and both
rolling counts reset to zero after every adjustment, whichever branch was
taken.  `should_allow` performs this adjustment once more than 10 seconds
have passed since the previous one. -/
theorem C6_rate_limiter_adjustment :
    (∀ rl : AdaptiveRateLimiter, 0 < rl.success_count → 0 < rl.base_rate →
      (((rl.error_count : ℚ) / (rl.success_count : ℚ) > 1 / 10 →
        rl.adjust_rate.current_rate
          = max (rl.current_rate * (8 / 10)) (rl.base_rate * (1 / 10)) ∧
        (rl.base_rate * (1 / 10) < rl.current_rate →
          rl.adjust_rate.current_rate < rl.current_rate)) ∧
      ((rl.error_count : ℚ) / (rl.success_count : ℚ) < 1 / 100 →
        rl.adjust_rate.current_rate
          = min (rl.current_rate * (11 / 10)) (rl.base_rate * 2) ∧
        rl.adjust_rate.current_rate ≤ rl.base_rate * 2 ∧
        (0 < rl.current_rate → rl.current_rate < rl.base_rate * 2 →
          rl.current_rate < rl.adjust_rate.current_rate)))) ∧
    (∀ rl : AdaptiveRateLimiter,
      rl.adjust_rate.success_count = 0 ∧ rl.adjust_rate.error_count = 0) ∧
    (∀ (rl : AdaptiveRateLimiter) (now rand : ℚ),
      now - rl.last_adjustment > 10 →
      (rl.should_allow now rand).2
        = { rl.adjust_rate with last_adjustment := now }) := by
  refine ⟨?_, ?_, ?_⟩
  · intro rl hs hb
    have hsq : (0 : ℚ) < (rl.success_count : ℚ) := by exact_mod_cast hs
    have hcur_eq : rl.adjust_rate.current_rate
        = (if (rl.success_count : ℚ) * (1 / 10) < (rl.error_count : ℚ) then
            max (rl.current_rate * (8 / 10)) (rl.base_rate * (1 / 10))
          else if (rl.error_count : ℚ) < (rl.success_count : ℚ) * (1 / 100) then
            min (rl.current_rate * (11 / 10)) (rl.base_rate * 2)
          else rl.current_rate) := rfl
    constructor
    · intro hratio
      have hcond : (rl.success_count : ℚ) * (1 / 10) < (rl.error_count : ℚ) := by
        rw [gt_iff_lt, lt_div_iff₀ hsq] at hratio
        linarith
      constructor
      · rw [hcur_eq, if_pos hcond]
      · intro hfloor
        have hcur : 0 < rl.current_rate :=
          lt_trans (by positivity) hfloor
        have h8 : rl.current_rate * (8 / 10) < rl.current_rate := by
          nlinarith
        rw [hcur_eq, if_pos hcond]
        exact max_lt h8 hfloor
    · intro hratio
      have hcond2 : (rl.error_count : ℚ) < (rl.success_count : ℚ) * (1 / 100) := by
        rw [div_lt_iff₀ hsq] at hratio
        linarith
      have hnot : ¬ ((rl.success_count : ℚ) * (1 / 10) < (rl.error_count : ℚ)) := by
        have h110 : (rl.success_count : ℚ) * (1 / 100)
            ≤ (rl.success_count : ℚ) * (1 / 10) := by nlinarith
        exact not_lt.mpr (le_trans (le_of_lt hcond2) h110)
      refine ⟨?_, ?_, ?_⟩
      · rw [hcur_eq, if_neg hnot, if_pos hcond2]
      · rw [hcur_eq, if_neg hnot, if_pos hcond2]
        exact min_le_right _ _
      · intro hpos hceil
        have h11 : rl.current_rate < rl.current_rate * (11 / 10) := by
          nlinarith
        rw [hcur_eq, if_neg hnot, if_pos hcond2]
        exact lt_min h11 hceil
  · intro rl
    constructor <;> simp [AdaptiveRateLimiter.adjust_rate]
  · intro rl now rand h
    simp [AdaptiveRateLimiter.should_allow, h]

/-- Closed instantiation of `C6_rate_limiter_adjustment`: with
`base_rate = 1000`, an interval with 15 errors against 100 successes
(15% error ratio) strictly decreases `current_rate` from 1000, and an
interval with 5 errors against 1000 successes (0.5% error ratio)
strictly increases it while staying at most `2000 = 2 * base_rate`, with
both counts reset in each case. -/
theorem C6_rate_limiter_adjustment_witness :
    ((AdaptiveRateLimiter.adjust_rate
        { base_rate := 1000, current_rate := 1000, success_count := 100,
          error_count := 15, last_adjustment := 0 }).current_rate < 1000 ∧
     (1000 : ℚ) <
      (AdaptiveRateLimiter.adjust_rate
        { base_rate := 1000, current_rate := 1000, success_count := 1000,
          error_count := 5, last_adjustment := 0 }).current_rate ∧
     (AdaptiveRateLimiter.adjust_rate
        { base_rate := 1000, current_rate := 1000, success_count := 1000,
          error_count := 5, last_adjustment := 0 }).current_rate ≤ 2 * 1000) ∧
    ((AdaptiveRateLimiter.adjust_rate
        { base_rate := 1000, current_rate := 1000, success_count := 100,
          error_count := 15, last_adjustment := 0 }).success_count = 0 ∧
     (AdaptiveRateLimiter.adjust_rate
        { base_rate := 1000, current_rate := 1000, success_count := 100,
          error_count := 15, last_adjustment := 0 }).error_count = 0) := by
  have hshrink := (C6_rate_limiter_adjustment.1
      { base_rate := 1000, current_rate := 1000, success_count := 100,
        error_count := 15, last_adjustment := 0 }
      (by norm_num) (by norm_num)).1 (by norm_num)
  have hgrow := (C6_rate_limiter_adjustment.1
      { base_rate := 1000, current_rate := 1000, success_count := 1000,
        error_count := 5, last_adjustment := 0 }
      (by norm_num) (by norm_num)).2 (by norm_num)
  have hreset := C6_rate_limiter_adjustment.2.1
      { base_rate := 1000, current_rate := 1000, success_count := 100,
        error_count := 15, last_adjustment := 0 }
  refine ⟨⟨hshrink.2 (by norm_num), hgrow.2.2 (by norm_num) (by norm_num), ?_⟩, hreset⟩
  calc (AdaptiveRateLimiter.adjust_rate
        { base_rate := 1000, current_rate := 1000, success_count := 1000,
          error_count := 5, last_adjustment := 0 }).current_rate
      ≤ (1000 : ℚ) * 2 := hgrow.2.1
    _ = 2 * 1000 := by ring

/-- C3: the idempotency key is a deterministic function of
`(event_id, user_id, timestamp, stage)`; a call whose key is not yet in
the filter's cache returns true and inserts the key; a call whose key is
already cached returns false with the cache unchanged; and after any call
for an event, every further call with the same tuple returns false. -/
theorem C3_idempotency_filter :
    (∀ (stage : String) (e e' : Event),
      e.event_id = e'.event_id → e.user_id = e'.user_id →
      e.timestamp = e'.timestamp →
      generate_idempotency_key stage e = generate_idempotency_key stage e') ∧
    (∀ (stage : String) (cache : List String) (e : Event),
      generate_idempotency_key stage e ∉ cache →
      shouldProcess stage cache e
        = (true, generate_idempotency_key stage e :: cache)) ∧
    (∀ (stage : String) (cache : List String) (e : Event),
      generate_idempotency_key stage e ∈ cache →
      shouldProcess stage cache e = (false, cache)) ∧
    (∀ (stage : String) (cache : List String) (e e' : Event),
      e.event_id = e'.event_id → e.user_id = e'.user_id →
      e.timestamp = e'.timestamp →
      (shouldProcess stage (shouldProcess stage cache e).2 e').1 = false) := by
  have hdet : ∀ (stage : String) (e e' : Event),
      e.event_id = e'.event_id → e.user_id = e'.user_id →
      e.timestamp = e'.timestamp →
      generate_idempotency_key stage e = generate_idempotency_key stage e' := by
    intro stage e e' h1 h2 h3
    unfold generate_idempotency_key
    rw [h1, h2, h3]
  refine ⟨hdet, ?_, ?_, ?_⟩
  · intro stage cache e h
    simp [shouldProcess, h]
  · intro stage cache e h
    simp [shouldProcess, h]
  · intro stage cache e e' h1 h2 h3
    have hkey := hdet stage e e' h1 h2 h3
    by_cases hmem : generate_idempotency_key stage e ∈ cache
    · simp [shouldProcess, hmem, ← hkey]
    · simp [shouldProcess, hmem, ← hkey]

/-- Closed instantiation of `C3_idempotency_filter`: a concrete event is
processed on first sight, its key is cached, and an identical tuple is
rejected afterwards without touching the cache. -/
theorem C3_idempotency_filter_witness :
    (shouldProcess "enrichment" []
        { event_id := some "e1", user_id := some "u1", timestamp := some 1000 }
      = (true, [generate_idempotency_key "enrichment"
          { event_id := some "e1", user_id := some "u1", timestamp := some 1000 }])) ∧
    ((shouldProcess "enrichment"
        (shouldProcess "enrichment" []
          { event_id := some "e1", user_id := some "u1", timestamp := some 1000 }).2
        { event_id := some "e1", user_id := some "u1", timestamp := some 1000 }).1
      = false) :=
  ⟨C3_idempotency_filter.2.1 "enrichment" []
      { event_id := some "e1", user_id := some "u1", timestamp := some 1000 }
      (by decide),
   C3_idempotency_filter.2.2.2 "enrichment" []
      { event_id := some "e1", user_id := some "u1", timestamp := some 1000 }
      { event_id := some "e1", user_id := some "u1", timestamp := some 1000 }
      rfl rfl rfl⟩

theorem handleBatch_eq_foldl (stage : String) (cache : List String)
    (msgs : List (String × Payload)) :
    handleBatch stage cache msgs =
      msgs.foldl (batchStep stage)
        { cache := cache, processed := [], ack_ids := [], errors_logged := [] } := by
  rfl

/-- Accumulator characterization of the batch loop: acknowledged ids are
the parseable messages' ids in order; logged errors are the malformed
messages' ids in order. -/
theorem batchFold_acks (stage : String) :
    ∀ (msgs : List (String × Payload)) (out : BatchOutcome),
      (msgs.foldl (batchStep stage) out).ack_ids
        = out.ack_ids
          ++ (msgs.filter (fun m => m.2 ≠ Payload.malformed)).map Prod.fst ∧
      (msgs.foldl (batchStep stage) out).errors_logged
        = out.errors_logged
          ++ (msgs.filter (fun m => m.2 = Payload.malformed)).map Prod.fst := by
  intro msgs
  induction msgs with
  | nil => intro out; simp
  | cons m rest ih =>
      intro out
      obtain ⟨m1, m2⟩ := m
      cases m2 <;>
        simp [batchStep, List.filter_cons, ih, List.append_assoc]

/-- C2 counterexample: a batch consisting of one message with an
unparseable payload has the error logged, but the message id is NOT in
`ack_ids` — the `ack_ids.append` inside the `try` block is skipped when
parsing raises, so the claim that the message is acknowledged anyway is
false. -/
theorem C2_counterexample :
    (handleBatch "enrichment" [] [("1-0", Payload.malformed)]).errors_logged
      = ["1-0"] ∧
    (handleBatch "enrichment" [] [("1-0", Payload.malformed)]).ack_ids = [] :=
  ⟨rfl, rfl⟩

/-- C2 amended: for every message whose payload is unparseable, the
consumer logs the error but does not acknowledge the message; exactly
the parseable messages of the batch are acknowledged, so a poison
message stays pending instead of being skipped. -/
theorem C2_amended_malformed_logged_not_acked (stage : String)
    (cache : List String) (msgs : List (String × Payload)) :
    (handleBatch stage cache msgs).ack_ids
      = (msgs.filter (fun m => m.2 ≠ Payload.malformed)).map Prod.fst ∧
    (handleBatch stage cache msgs).errors_logged
      = (msgs.filter (fun m => m.2 = Payload.malformed)).map Prod.fst := by
  rw [handleBatch_eq_foldl]
  simpa using batchFold_acks stage msgs
    { cache := cache, processed := [], ack_ids := [], errors_logged := [] }

theorem secs_lt_60_iff (d : ℤ) : ((d : ℚ) / 1000 < 60) ↔ d < 60000 := by
  rw [div_lt_iff₀ (by norm_num : (0 : ℚ) < 1000)]
  norm_cast

theorem all_secs_lt_60_iff (l : List ℤ) :
    ((l.map (fun d : ℤ => (d : ℚ) / 1000)).all (fun d => d < 60) = true)
      ↔ ∀ d ∈ l, d < 60000 := by
  induction l with
  | nil => simp
  | cons a rest ih =>
      simp only [List.map_cons, List.all_cons, Bool.and_eq_true,
        decide_eq_true_eq, List.mem_cons, ih]
      constructor
      · rintro ⟨ha, hrest⟩ d (rfl | hd)
        · exact (secs_lt_60_iff d).mp ha
        · exact hrest d hd
      · intro h
        exact ⟨(secs_lt_60_iff a).mpr (h a (Or.inl rfl)),
          fun d hd => h d (Or.inr hd)⟩

theorem detect_fraud_isSome_iff (events : List Event) :
    (detect_fraud_pattern events).isSome = true ↔
      (3 ≤ (events.filter (fun e => e.event_type = some "purchase")).length ∧
       ∀ d ∈ consecDiffs
          ((events.filter (fun e => e.event_type = some "purchase")).map tsRaw),
         d < 60000) := by
  simp only [detect_fraud_pattern]
  split_ifs with h3 hp hall
  · simp only [Option.isSome_none, Bool.false_eq_true, false_iff, not_and]
    intro hp'
    have hle := List.length_filter_le
      (fun e => decide (e.event_type = some "purchase")) events
    omega
  · simp only [Option.isSome_some, true_iff]
    exact ⟨hp, (all_secs_lt_60_iff _).mp hall⟩
  · simp only [Option.isSome_none, Bool.false_eq_true, false_iff, not_and]
    intro _ hd
    exact hall ((all_secs_lt_60_iff _).mpr hd)
  · simp only [Option.isSome_none, Bool.false_eq_true, false_iff, not_and]
    intro hp'
    exact absurd hp' hp

theorem detect_fraud_report (events : List Event) (r : FraudResult)
    (h : detect_fraud_pattern events = some r) :
    r.purchase_count
      = (events.filter (fun e => e.event_type = some "purchase")).length ∧
    r.avg_time_between
      = ((consecDiffs
            ((events.filter (fun e => e.event_type = some "purchase")).map tsRaw)).map
            (fun d : ℤ => (d : ℚ) / 1000)).sum
        / (((consecDiffs
            ((events.filter (fun e => e.event_type = some "purchase")).map tsRaw)).map
            (fun d : ℤ => (d : ℚ) / 1000)).length : ℚ) := by
  simp only [detect_fraud_pattern] at h
  split_ifs at h
  · cases h
    exact ⟨rfl, by rw [List.length_map]⟩

/-- C7: the fraud detector fires exactly when the buffer holds at least 3
purchase events and every consecutive pair of purchases (in buffer order)
is separated by strictly less than 60000 ms; purchases at
`t, t+59999, t+119998` fire while a consecutive gap of exactly 60000 ms
prevents firing; on firing it reports the purchase count and the mean
consecutive gap (in seconds). -/
theorem C7_fraud_detector :
    (∀ events : List Event,
      (detect_fraud_pattern events).isSome = true ↔
        (3 ≤ (events.filter (fun e => e.event_type = some "purchase")).length ∧
         ∀ d ∈ consecDiffs
            ((events.filter (fun e => e.event_type = some "purchase")).map tsRaw),
           d < 60000)) ∧
    (∀ (events : List Event) (r : FraudResult),
      detect_fraud_pattern events = some r →
      r.purchase_count
        = (events.filter (fun e => e.event_type = some "purchase")).length ∧
      r.avg_time_between
        = ((consecDiffs
              ((events.filter (fun e => e.event_type = some "purchase")).map tsRaw)).map
              (fun d : ℤ => (d : ℚ) / 1000)).sum
          / (((consecDiffs
              ((events.filter (fun e => e.event_type = some "purchase")).map tsRaw)).map
              (fun d : ℤ => (d : ℚ) / 1000)).length : ℚ)) ∧
    (∀ t : ℤ,
      (detect_fraud_pattern
        [{ event_type := some "purchase", timestamp := some t },
         { event_type := some "purchase", timestamp := some (t + 59999) },
         { event_type := some "purchase", timestamp := some (t + 119998) }]).isSome
        = true) ∧
    (∀ t : ℤ,
      detect_fraud_pattern
        [{ event_type := some "purchase", timestamp := some t },
         { event_type := some "purchase", timestamp := some (t + 60000) },
         { event_type := some "purchase", timestamp := some (t + 119999) }]
        = none) := by
  refine ⟨detect_fraud_isSome_iff, detect_fraud_report, ?_, ?_⟩
  · intro t
    rw [detect_fraud_isSome_iff]
    refine ⟨by simp [List.filter], ?_⟩
    intro d hd
    simp [consecDiffs, tsRaw] at hd
    rcases hd with hd | hd
    all_goals omega
  · intro t
    have hnot : ¬ ((detect_fraud_pattern
        [{ event_type := some "purchase", timestamp := some t },
         { event_type := some "purchase", timestamp := some (t + 60000) },
         { event_type := some "purchase", timestamp := some (t + 119999) }]).isSome
          = true) := by
      rw [detect_fraud_isSome_iff]
      rintro ⟨-, hall⟩
      have h1 := hall (t + 60000 - t) (by simp [consecDiffs, tsRaw])
      omega
    simpa [Option.not_isSome_iff_eq_none] using hnot

/-- Closed instantiation of `C7_fraud_detector`: three purchases at
0, 59999 and 119998 ms fire and report 3 purchases with a mean gap of
59.999 seconds. -/
theorem C7_fraud_detector_witness :
    ({ rapid_purchases := true, purchase_count := 3,
       avg_time_between := 59999 / 1000 : FraudResult }.purchase_count
      = (([{ event_type := some "purchase", timestamp := some 0 },
           { event_type := some "purchase", timestamp := some 59999 },
           { event_type := some "purchase", timestamp := some 119998 }] :
            List Event).filter
              (fun e => e.event_type = some "purchase")).length) :=
  (C7_fraud_detector.2.1
    [{ event_type := some "purchase", timestamp := some 0 },
     { event_type := some "purchase", timestamp := some 59999 },
     { event_type := some "purchase", timestamp := some 119998 }]
    { rapid_purchases := true, purchase_count := 3,
      avg_time_between := 59999 / 1000 }
    (by norm_num [detect_fraud_pattern, consecDiffs, tsRaw, List.filter])).1

theorem detect_funnel_isSome_iff (events : List Event) :
    (detect_purchase_funnel events).isSome = true ↔
      (some "page_view" ∈ events.map Event.event_type ∧
       some "click" ∈ events.map Event.event_type ∧
       some "purchase" ∈ events.map Event.event_type ∧
       (events.map Event.event_type).indexOf (some "page_view")
         < (events.map Event.event_type).indexOf (some "click") ∧
       (events.map Event.event_type).indexOf (some "click")
         < (events.map Event.event_type).indexOf (some "purchase")) := by
  simp only [detect_purchase_funnel]
  split_ifs with hmem hidx
  · simp only [Option.isSome_some, true_iff]
    exact ⟨hmem.1, hmem.2.1, hmem.2.2, hidx.1, hidx.2⟩
  · simp only [Option.isSome_none, Bool.false_eq_true, false_iff]
    rintro ⟨-, -, -, h4, h5⟩
    exact hidx ⟨h4, h5⟩
  · simp only [Option.isSome_none, Bool.false_eq_true, false_iff]
    rintro ⟨h1, h2, h3, -, -⟩
    exact hmem ⟨h1, h2, h3⟩

theorem detect_funnel_report (events : List Event) (r : FunnelResult)
    (h : detect_purchase_funnel events = some r) :
    r.conversion_time
      = tsRaw (events.getD
          ((events.map Event.event_type).indexOf (some "purchase")) {})
        - tsRaw (events.getD
          ((events.map Event.event_type).indexOf (some "page_view")) {}) := by
  simp only [detect_purchase_funnel] at h
  split_ifs at h
  · cases h
    rfl

/-- C8: the funnel detector fires exactly when `page_view`, `click` and
`purchase` all occur in the buffer with strictly increasing
first-occurrence indices; on firing, `conversion_time` is the first
purchase's timestamp minus the first page view's timestamp;
`[page_view@t0, click@t1, purchase@t2]` (with `t0 < t1 < t2`) fires with
`conversion_time = t2 - t0`, while `[click, page_view, purchase]` does
not fire. -/
theorem C8_funnel_detector :
    (∀ events : List Event,
      (detect_purchase_funnel events).isSome = true ↔
        (some "page_view" ∈ events.map Event.event_type ∧
         some "click" ∈ events.map Event.event_type ∧
         some "purchase" ∈ events.map Event.event_type ∧
         (events.map Event.event_type).indexOf (some "page_view")
           < (events.map Event.event_type).indexOf (some "click") ∧
         (events.map Event.event_type).indexOf (some "click")
           < (events.map Event.event_type).indexOf (some "purchase"))) ∧
    (∀ (events : List Event) (r : FunnelResult),
      detect_purchase_funnel events = some r →
      r.conversion_time
        = tsRaw (events.getD
            ((events.map Event.event_type).indexOf (some "purchase")) {})
          - tsRaw (events.getD
            ((events.map Event.event_type).indexOf (some "page_view")) {})) ∧
    (∀ t0 t1 t2 : ℤ, t0 < t1 → t1 < t2 →
      detect_purchase_funnel
        [{ event_type := some "page_view", timestamp := some t0 },
         { event_type := some "click", timestamp := some t1 },
         { event_type := some "purchase", timestamp := some t2 }]
        = some { funnel_completed := true, conversion_time := t2 - t0,
                 steps := 3 }) ∧
    (∀ t0 t1 t2 : ℤ,
      detect_purchase_funnel
        [{ event_type := some "click", timestamp := some t1 },
         { event_type := some "page_view", timestamp := some t0 },
         { event_type := some "purchase", timestamp := some t2 }] = none) := by
  exact ⟨detect_funnel_isSome_iff, detect_funnel_report,
    fun t0 t1 t2 _ _ => rfl, fun t0 t1 t2 => rfl⟩

/-- Closed instantiation of `C8_funnel_detector`: the buffer
`[page_view@0, click@1, purchase@2]` fires with conversion time `2 - 0`
and the reported conversion time matches the first-occurrence
timestamps. -/
theorem C8_funnel_detector_witness :
    (detect_purchase_funnel
        [{ event_type := some "page_view", timestamp := some 0 },
         { event_type := some "click", timestamp := some 1 },
         { event_type := some "purchase", timestamp := some 2 }]
      = some { funnel_completed := true, conversion_time := 2 - 0,
               steps := 3 }) ∧
    ({ funnel_completed := true, conversion_time := 2, steps := 3 :
        FunnelResult }.conversion_time
      = tsRaw (([{ event_type := some "page_view", timestamp := some 0 },
                 { event_type := some "click", timestamp := some 1 },
                 { event_type := some "purchase", timestamp := some 2 }] :
                  List Event).getD 2 {})
        - tsRaw (([{ event_type := some "page_view", timestamp := some 0 },
                   { event_type := some "click", timestamp := some 1 },
                   { event_type := some "purchase", timestamp := some 2 }] :
                    List Event).getD 0 {})) :=
  ⟨C8_funnel_detector.2.2.1 0 1 2 (by norm_num) (by norm_num),
   C8_funnel_detector.2.1
     [{ event_type := some "page_view", timestamp := some 0 },
      { event_type := some "click", timestamp := some 1 },
      { event_type := some "purchase", timestamp := some 2 }]
     { funnel_completed := true, conversion_time := 2, steps := 3 }
     (C8_funnel_detector.2.2.1 0 1 2 (by norm_num) (by norm_num))⟩

theorem evictOld_eq_filter (cutoff : ℚ) :
    ∀ l : List (ℚ × Event), l.Pairwise (fun a b => a.1 ≤ b.1) →
      evictOld cutoff l = l.filter (fun p => cutoff ≤ p.1) := by
  intro l
  induction l with
  | nil => intro _; rfl
  | cons p rest ih =>
      intro hp
      obtain ⟨p1, p2⟩ := p
      rw [List.pairwise_cons] at hp
      by_cases hc : p1 < cutoff
      · simp only [evictOld, if_pos hc, List.filter_cons]
        rw [ih hp.2]
        simp [not_le.mpr hc]
      · simp only [evictOld, if_neg hc, List.filter_cons]
        have hhead : cutoff ≤ p1 := not_lt.mp hc
        have htail : rest.filter (fun p => cutoff ≤ p.1) = rest :=
          List.filter_eq_self.mpr
            (fun x hx => by
              simp only [decide_eq_true_eq]
              exact le_trans hhead (hp.1 x hx))
        simp [hhead, htail]

/-- C4 counterexample: with `window_size = 60`, inserting at time 0 and
then at time 60 retains the entry whose insertion time equals
`now - window_size = 0` (the eviction test is `t < cutoff`, strict), while
the claimed half-open interval `(now - window_size, now]` excludes it:
filtering the same entries with the claimed strict lower bound drops the
time-0 entry the code keeps. -/
theorem C4_counterexample :
    (((SlidingWindow.init 60).add_event 0 {}).add_event 60 {}).events
      = [((0 : ℚ), ({} : Event)), ((60 : ℚ), ({} : Event))] ∧
    ([((0 : ℚ), ({} : Event)), ((60 : ℚ), ({} : Event))].filter
        (fun p => (60 : ℚ) - 60 < p.1 ∧ p.1 ≤ 60))
      = [((60 : ℚ), ({} : Event))] := by
  constructor
  · norm_num [SlidingWindow.add_event, SlidingWindow.init, evictOld]
  · norm_num [List.filter]

/-- C4 amended: when insertion times are non-decreasing (as produced by a
monotone wall clock), after each `add_event` the retained entries are
exactly those with insertion time in the CLOSED-left interval
`[now - window_size, now]`, and the aggregates equal a fresh full
recomputation over exactly the retained entries. -/
theorem C4_amended_window_invariant (w : SlidingWindow) (now : ℚ) (e : Event)
    (hsorted : (w.events ++ [(now, e)]).Pairwise (fun a b => a.1 ≤ b.1)) :
    (w.add_event now e).events
      = (w.events ++ [(now, e)]).filter
          (fun p => now - w.window_size ≤ p.1 ∧ p.1 ≤ now) ∧
    (w.add_event now e).aggregates
      = computeAggregates ((w.add_event now e).events) := by
  refine ⟨?_, rfl⟩
  have hall : ∀ p ∈ w.events ++ [(now, e)], p.1 ≤ now := by
    intro p hp
    rcases List.mem_append.mp hp with h | h
    · have hsplit := List.pairwise_append.mp hsorted
      exact hsplit.2.2 p h (now, e) (List.mem_singleton.mpr rfl)
    · rw [List.mem_singleton] at h
      rw [h]
  show evictOld (now - w.window_size) (w.events ++ [(now, e)]) = _
  rw [evictOld_eq_filter _ _ hsorted]
  apply List.filter_congr
  intro p hp
  simp [hall p hp]

/-- Closed instantiation of `C4_amended_window_invariant`: one insertion
at time 5 into a fresh 60-second window. -/
theorem C4_amended_window_invariant_witness :
    ((SlidingWindow.init 60).add_event 5 {}).events
      = (((SlidingWindow.init 60).events ++ [((5 : ℚ), ({} : Event))]).filter
          (fun p => 5 - (SlidingWindow.init 60).window_size ≤ p.1 ∧ p.1 ≤ 5)) ∧
    ((SlidingWindow.init 60).add_event 5 {}).aggregates
      = computeAggregates (((SlidingWindow.init 60).add_event 5 {}).events) :=
  C4_amended_window_invariant (SlidingWindow.init 60) 5 {} (by decide)

theorem maxScore_le {b : ℚ} (hb : 0 ≤ b) :
    ∀ l : List ℚ, (∀ x ∈ l, x ≤ b) → maxScore l ≤ b := by
  have haux : ∀ (l : List ℚ) (a : ℚ), a ≤ b → (∀ x ∈ l, x ≤ b) →
      l.foldl max a ≤ b := by
    intro l
    induction l with
    | nil => intro a ha _; exact ha
    | cons x xs ih =>
        intro a ha h
        exact ih (max a x) (max_le ha (h x (List.mem_cons_self x xs)))
          (fun y hy => h y (List.mem_cons_of_mem x hy))
  intro l h
  cases l with
  | nil => exact hb
  | cons x xs =>
      exact haux xs x (h x (List.mem_cons_self x xs))
        (fun y hy => h y (List.mem_cons_of_mem x hy))

theorem rapid_fire_le_one (now : ℚ) (st : AnomalyDetector) (e : Event) :
    ∀ p ∈ rapid_fire_anomaly now st e, p.2 ≤ 1 := by
  intro p hp
  unfold rapid_fire_anomaly at hp
  split at hp
  · split_ifs at hp
    · rcases List.mem_singleton.mp hp with rfl
      exact min_le_left _ _
    · simp at hp
  · simp at hp

theorem purchase_anomalies_le_one (st : AnomalyDetector) (e : Event) :
    ∀ p ∈ purchase_anomalies st e, p.2 ≤ 1 := by
  intro p hp
  unfold purchase_anomalies at hp
  by_cases h1 : e.event_type = some "purchase" ∧ amtTruthy e.amount
  · rw [if_pos h1] at hp
    rcases List.mem_append.mp hp with hp | hp
    · split at hp
      · split_ifs at hp
        · rcases List.mem_singleton.mp hp with rfl
          exact min_le_left _ _
        · simp at hp
      · simp at hp
    · split_ifs at hp
      · rcases List.mem_singleton.mp hp with rfl
        exact min_le_left _ _
      · simp at hp
  · rw [if_neg h1] at hp
    simp at hp

theorem time_anomaly_le_one (now : ℚ) (e : Event) :
    ∀ p ∈ time_anomaly now e, p.2 ≤ 1 := by
  intro p hp
  unfold time_anomaly at hp
  split_ifs at hp
  · rcases List.mem_singleton.mp hp with rfl
    norm_num
  · simp at hp

theorem behavioral_scores_le_one (now : ℚ) (st : AnomalyDetector) (e : Event) :
    ∀ p ∈ detect_behavioral_anomalies now st e, p.2 ≤ 1 := by
  intro p hp
  unfold detect_behavioral_anomalies at hp
  rcases List.mem_append.mp hp with hp | hp
  · rcases List.mem_append.mp hp with hp | hp
    · exact rapid_fire_le_one now st e p hp
    · exact purchase_anomalies_le_one st e p hp
  · exact time_anomaly_le_one now e p hp

theorem get_ml_anomaly_score_nonneg (t : Bool) (mlRaw : ℚ) :
    0 ≤ get_ml_anomaly_score t mlRaw := by
  unfold get_ml_anomaly_score
  split_ifs
  · exact le_max_left _ _
  · exact le_refl 0

theorem get_ml_anomaly_score_le_one (t : Bool) (mlRaw : ℚ) :
    get_ml_anomaly_score t mlRaw ≤ 1 := by
  unfold get_ml_anomaly_score
  split_ifs
  · exact max_le (by norm_num) (min_le_left _ _)
  · norm_num

theorem update_user_baseline_is_trained (now : ℚ) (st : AnomalyDetector)
    (e : Event) :
    (update_user_baseline now st e).is_trained = st.is_trained := by
  unfold update_user_baseline
  split <;> rfl

/-- C9: for every event and detector state, the combined anomaly score is
the maximum of the learned (ML) score and the largest triggered
behavioral sub-score (`max(..., default=0)`); it lies in `[0, 1]`;
`is_anomaly` holds exactly when the combined score strictly exceeds 0.7;
and while the detector is untrained the learned score is 0. -/
theorem C9_combined_score (mlRaw now : ℚ) (st : AnomalyDetector) (e : Event) :
    (analyze_event mlRaw now st e).1.combined_anomaly_score
      = max (analyze_event mlRaw now st e).1.ml_anomaly_score
          (maxScore
            ((analyze_event mlRaw now st e).1.behavioral_anomalies.map Prod.snd)) ∧
    0 ≤ (analyze_event mlRaw now st e).1.combined_anomaly_score ∧
    (analyze_event mlRaw now st e).1.combined_anomaly_score ≤ 1 ∧
    ((analyze_event mlRaw now st e).1.is_anomaly = true ↔
      (analyze_event mlRaw now st e).1.combined_anomaly_score > 7 / 10) ∧
    (st.is_trained = false →
      (analyze_event mlRaw now st e).1.ml_anomaly_score = 0) := by
  refine ⟨rfl, ?_, ?_, ?_, ?_⟩
  · show 0 ≤ max (get_ml_anomaly_score _ mlRaw) _
    exact le_trans (get_ml_anomaly_score_nonneg _ mlRaw) (le_max_left _ _)
  · show max (get_ml_anomaly_score _ mlRaw)
        (maxScore ((detect_behavioral_anomalies now _ e).map Prod.snd)) ≤ 1
    refine max_le (get_ml_anomaly_score_le_one _ mlRaw) ?_
    refine maxScore_le (by norm_num) _ ?_
    intro x hx
    rcases List.mem_map.mp hx with ⟨p, hp, rfl⟩
    exact behavioral_scores_le_one now _ e p hp
  · exact ⟨fun h => of_decide_eq_true h, fun h => decide_eq_true h⟩
  · intro ht
    show get_ml_anomaly_score
        ({ update_user_baseline now st e with
            feature_count := _ } : AnomalyDetector).is_trained mlRaw = 0
    rw [show ({ update_user_baseline now st e with
            feature_count := min ((update_user_baseline now st e).feature_count + 1)
              10000 } : AnomalyDetector).is_trained
          = (update_user_baseline now st e).is_trained from rfl,
        update_user_baseline_is_trained, ht]
    rfl

/-- Closed instantiation of `C9_combined_score`: on a fresh (untrained)
detector the learned score of any event is 0. -/
theorem C9_combined_score_witness :
    (analyze_event 0 0 AnomalyDetector.init {}).1.ml_anomaly_score = 0 :=
  (C9_combined_score 0 0 AnomalyDetector.init {}).2.2.2.2 rfl

theorem mem_pushBounded_self {α : Type} (cap : Nat) (hcap : 0 < cap)
    (l : List α) (x : α) : x ∈ pushBounded cap l x := by
  unfold pushBounded
  split_ifs with h
  · have hlen : (l ++ [x]).length = l.length + 1 := by simp
    have hle : (l ++ [x]).length - cap ≤ l.length := by omega
    rw [List.drop_append_of_le_length hle]
    exact List.mem_append_right _ (List.mem_singleton.mpr rfl)
  · exact List.mem_append_right _ (List.mem_singleton.mpr rfl)

theorem update_user_baseline_buffer (now : ℚ) (st : AnomalyDetector)
    (e : Event) :
    (update_user_baseline now st e).anomaly_buffer = st.anomaly_buffer := by
  unfold update_user_baseline
  split <;> rfl

theorem analyze_event_state_eq (mlRaw now : ℚ) (st : AnomalyDetector)
    (e : Event) :
    (analyze_event mlRaw now st e).2
      = (if (analyze_event mlRaw now st e).1.combined_anomaly_score > 1 / 2
         then { update_user_baseline now st e with
                  feature_count :=
                    min ((update_user_baseline now st e).feature_count + 1)
                      10000,
                  anomaly_buffer :=
                    pushBounded 1000
                      (update_user_baseline now st e).anomaly_buffer
                      (analyze_event mlRaw now st e).1 }
         else { update_user_baseline now st e with
                  feature_count :=
                    min ((update_user_baseline now st e).feature_count + 1)
                      10000 }) := rfl

/-- C1 amended: every analyzed event gets an analysis record, but the
record is persisted to the external store (with its 24-hour = 86400 s
expiry) exactly when the combined score strictly exceeds 0.7
(`is_anomaly`); a combined score above 0.5 only appends the record to the
in-memory `anomaly_buffer`, and a score at most 0.5 leaves the buffer
unchanged. -/
theorem C1_amended_persistence_threshold (mlRaw now : ℚ)
    (st : AnomalyDetector) (e : Event) :
    ((analyze_event mlRaw now st e).1.combined_anomaly_score > 7 / 10 →
      handle_analysis (analyze_event mlRaw now st e).1
        = some (store_anomaly (analyze_event mlRaw now st e).1)) ∧
    (¬ ((analyze_event mlRaw now st e).1.combined_anomaly_score > 7 / 10) →
      handle_analysis (analyze_event mlRaw now st e).1 = none) ∧
    (∀ a : AnalysisResult, (store_anomaly a).expire_seconds = 86400) ∧
    ((analyze_event mlRaw now st e).1.combined_anomaly_score > 1 / 2 →
      (analyze_event mlRaw now st e).1
        ∈ (analyze_event mlRaw now st e).2.anomaly_buffer) ∧
    (¬ ((analyze_event mlRaw now st e).1.combined_anomaly_score > 1 / 2) →
      (analyze_event mlRaw now st e).2.anomaly_buffer = st.anomaly_buffer) := by
  refine ⟨?_, ?_, fun a => rfl, ?_, ?_⟩
  · intro h
    unfold handle_analysis
    rw [show (analyze_event mlRaw now st e).1.is_anomaly = true
        from decide_eq_true h]
    simp
  · intro h
    unfold handle_analysis
    rw [show (analyze_event mlRaw now st e).1.is_anomaly = false
        from decide_eq_false h]
    simp
  · intro h
    rw [analyze_event_state_eq mlRaw now st e, if_pos h]
    exact mem_pushBounded_self 1000 (by norm_num) _ _
  · intro h
    rw [analyze_event_state_eq mlRaw now st e, if_neg h]
    exact update_user_baseline_buffer now st e

/-- Closed instantiation of `C1_amended_persistence_threshold`: a fresh
detector analyzing the empty event at noon scores 0, so nothing is
persisted and the in-memory buffer stays empty. -/
theorem C1_amended_persistence_threshold_witness :
    handle_analysis (analyze_event 0 43200 AnomalyDetector.init {}).1 = none ∧
    (analyze_event 0 43200 AnomalyDetector.init {}).2.anomaly_buffer
      = AnomalyDetector.init.anomaly_buffer := by
  have hscore : (analyze_event 0 43200 AnomalyDetector.init {}).1.combined_anomaly_score
      = 0 := by
    simp [analyze_event, update_user_baseline, AnomalyDetector.init,
      detect_behavioral_anomalies, rapid_fire_anomaly, purchase_anomalies,
      time_anomaly, recent_events, get_ml_anomaly_score, maxScore, hourOf,
      tsSeconds, strTruthy, amtTruthy]
    norm_num
  exact ⟨(C1_amended_persistence_threshold 0 43200 AnomalyDetector.init {}).2.1
      (by rw [hscore]; norm_num),
    (C1_amended_persistence_threshold 0 43200 AnomalyDetector.init {}).2.2.2.2
      (by rw [hscore]; norm_num)⟩

/-- C1 counterexample: in state `cst`, the event `cev` (its user's 26th
click inside a minute) scores `26/50 = 0.52`: the combined score exceeds
0.5, yet `handle_analysis` persists nothing to the external store — the
service only calls `store_anomaly` when `is_anomaly` (score > 0.7)
holds, so the claim's 0.5 persistence threshold is false. -/
theorem C1_counterexample :
    (analyze_event 0 100 cst cev).1.combined_anomaly_score = 13 / 25 ∧
    (1 / 2 : ℚ) < (analyze_event 0 100 cst cev).1.combined_anomaly_score ∧
    handle_analysis (analyze_event 0 100 cst cev).1 = none := by
  have hscore : (analyze_event 0 100 cst cev).1.combined_anomaly_score
      = 13 / 25 := by
    simp [analyze_event, update_user_baseline, cst, cbase, cev, upsertBaseline,
      setAdd, detect_behavioral_anomalies, rapid_fire_anomaly,
      purchase_anomalies, time_anomaly, recent_events, get_ml_anomaly_score,
      maxScore, hourOf, tsSeconds, strTruthy, amtTruthy, List.filter_replicate]
    norm_num
  have hanom : (analyze_event 0 100 cst cev).1.is_anomaly = false := by
    rw [show (analyze_event 0 100 cst cev).1.is_anomaly
        = decide ((analyze_event 0 100 cst cev).1.combined_anomaly_score
            > 7 / 10) from rfl,
      hscore]
    rw [decide_eq_false_iff_not]
    norm_num
  refine ⟨hscore, by rw [hscore]; norm_num, ?_⟩
  unfold handle_analysis
  rw [hanom]
  simp

end StreamAnalytics
